import Mathlib

/-!
Shallow embedding of the tebexjs headless-API client
(`src/headless/basket.ts`, `src/headless/index.ts` transport class, and
`src/headless/store.ts`), together with theorems settling the claims
about its behaviour.

JavaScript numbers are modelled as `Rat` (the claims never depend on
floating-point rounding), JSON request bodies as association lists of
string/number values, and one HTTP round trip as: the outgoing request
the client builds, plus a normalisation function applied to whatever
response the server produced.
-/

/-- A JSON scalar appearing in a request body built by this client
(the bodies in the source only ever hold strings and numbers). -/
inductive JsonVal where
  | str (s : String)
  | num (q : Rat)
deriving Repr, DecidableEq

/-- A JSON object request body, as the association list handed to
`JSON.stringify` in `Headless.request`. -/
abbrev RequestBody := List (String × JsonVal)

/-- The outgoing HTTP request assembled by `Headless.request`:
the final URL after placeholder substitution, the HTTP method, and
the optional JSON body. -/
structure HttpRequest where
  url : String
  method : String
  body : Option RequestBody
deriving Repr, DecidableEq

/-- The response the `fetch` call resolved with: numeric status,
status text, and the already-parsed JSON body (of arbitrary type `T`,
mirroring the generic `request<T>`). -/
structure HttpResponse (T : Type) where
  status : Nat
  statusText : String
  body : T

/-- Whether the first character list begins with the second
(character-by-character comparison). -/
def startsWithChars : List Char → List Char → Bool
  | _, [] => true
  | [], _ :: _ => false
  | c :: cs, p :: ps => c == p && startsWithChars cs ps

/-- Fuel-indexed worker for global literal replacement: at each
position, if the pattern matches there, emit the replacement and skip
the pattern, else keep one character; the fuel bounds the number of
steps by the input length. -/
def replaceAllAux (pattern repl : List Char) : Nat → List Char → List Char
  | 0, s => s
  | _ + 1, [] => []
  | fuel + 1, c :: rest =>
    if pattern ≠ [] ∧ startsWithChars (c :: rest) pattern then
      repl ++ replaceAllAux pattern repl fuel ((c :: rest).drop pattern.length)
    else
      c :: replaceAllAux pattern repl fuel rest

/-- Global literal substring replacement, the embedding of
JavaScript `s.replace(/pattern/g, repl)` for a fixed literal pattern. -/
def jsReplaceAll (s pattern repl : String) : String :=
  String.mk (replaceAllAux pattern.toList repl.toList s.toList.length s.toList)

/-- The mutable protected fields of the abstract `Headless` class:
`baseUrl`, the optional `publicToken`, and the optional `basketIdent`. -/
structure HeadlessState where
  baseUrl : String
  publicToken : Option String
  basketIdent : Option String
deriving Repr, DecidableEq

/-- The route computation at the top of `Headless.request`:
`path.replace(/{token}/g, this.publicToken ?? '').replace(/{basketIdent}/g, this.basketIdent ?? '')`. -/
def Headless.requestRoute (s : HeadlessState) (path : String) : String :=
  jsReplaceAll (jsReplaceAll path "{token}" (s.publicToken.getD ""))
    "{basketIdent}" (s.basketIdent.getD "")

/-- The outgoing request built by `Headless.request`: the `fetch` of
`this.baseUrl + route` with the given method and optional JSON body. -/
def Headless.mkRequest (s : HeadlessState) (path : String) (method : String)
    (body : Option RequestBody) : HttpRequest :=
  { url := s.baseUrl ++ Headless.requestRoute s path
    method := method
    body := body }

/-- The `response.ok` predicate of the Fetch API: status in 200–299. -/
def responseOk (status : Nat) : Bool :=
  200 ≤ status && status ≤ 299

/-- The response-normalisation half of `Headless.request`: on a
non-ok status reject with the status-derived message, otherwise return
the parsed JSON body unchanged. -/
def Headless.handleResponse {T : Type} (resp : HttpResponse T) : Except String T :=
  if responseOk resp.status then
    .ok resp.body
  else
    .error ("Request failed with status " ++ toString resp.status ++ ": " ++ resp.statusText)

/-- The complete transport helper `Headless.request`: given the state,
the path template, method and body, and the HTTP response the fetch
resolved with, it yields the request it issued and the result it
returns to the caller. -/
def Headless.request {T : Type} (s : HeadlessState) (path method : String)
    (body : Option RequestBody) (resp : HttpResponse T) :
    HttpRequest × Except String T :=
  (Headless.mkRequest s path method body, Headless.handleResponse resp)

/-- Running a Basket method to completion: a local validation
rejection short-circuits before any network I/O; otherwise the
response to the issued request is normalised by the transport helper. -/
def runCall {T : Type} (m : Except String HttpRequest) (resp : HttpResponse T) :
    Except String T :=
  match m with
  | .error msg => .error msg
  | .ok _ => Headless.handleResponse resp

/-- The `Coupon` record of `src/types/headless/basket.ts`. -/
structure Coupon where
  coupon_code : String
deriving Repr, DecidableEq

/-- The `GiftCard` record of `src/types/headless/basket.ts`. -/
structure GiftCard where
  card_number : String
deriving Repr, DecidableEq

/-- The `RevenueShare` record of `src/types/headless/basket.ts`. -/
structure RevenueShare where
  wallet_ref : Option String
  amount : Option Rat
  gateway_fee_percent : Option Rat
deriving Repr, DecidableEq

/-- The two values of the `type` field of a `Package`. -/
inductive PackageKind where
  | single
  | subscription
deriving Repr, DecidableEq

/-- The `Package` record of `src/types/headless/basket.ts`. -/
structure Package where
  qty : Option Rat
  kind : Option PackageKind
  revenue_share : Option (List RevenueShare)
deriving Repr, DecidableEq

/-- The `BasketResponse` record of `src/types/headless/basket.ts`:
every field is optional, in particular `ident`. -/
structure BasketResponse where
  id : Option Rat
  ident : Option String
  complete : Option Bool
  email : Option String
  username : Option String
  coupon : Option (List Coupon)
  giftcards : Option (List GiftCard)
  creator_code : Option String
  cancel_url : Option String
  complete_url : Option String
  complete_auto_redirect : Option Bool
  country : Option String
  ip : Option String
  username_id : Option Rat
  base_price : Option Rat
  sales_tax : Option Rat
  total_price : Option Rat
  currency : Option String
  packages : Option (List Package)
deriving Repr, DecidableEq

/-- A `BasketResponse` with every field absent. -/
def BasketResponse.empty : BasketResponse :=
  ⟨none, none, none, none, none, none, none, none, none, none,
   none, none, none, none, none, none, none, none, none⟩

/-- The fields of a `Basket` instance: the `publicToken` set by the
constructor, the `ident` field (initialised to the empty string and
overwritten by the construction-time callback), and the inherited
`Headless.basketIdent` field, which no code in `Basket` ever assigns. -/
structure BasketState where
  publicToken : String
  ident : String
  basketIdent : Option String
deriving Repr, DecidableEq

/-- The `Headless` view of a `Basket` instance: the base URL fixed by
the constructor, the held public token, and the inherited
`basketIdent` field (the transport helper reads this one, not `ident`). -/
def Basket.toHeadless (b : BasketState) : HeadlessState :=
  ⟨"https://headless.tebex.io/api", some b.publicToken, b.basketIdent⟩

/-- The synchronous part of the `Basket` constructor: it sets the
token and base URL, leaves `ident` at its initialiser `''` and
`basketIdent` unassigned, and fires the basket-creation POST, returned
here as the request it issues. -/
def Basket.init (publicToken : String) : BasketState × HttpRequest :=
  let b : BasketState := ⟨publicToken, "", none⟩
  (b, Headless.mkRequest (Basket.toHeadless b) "/accounts/{token}/baskets" "POST" none)

/-- The `.then` callback of the construction-time POST: it stores
`data.ident ?? ''` into the `ident` field; the inherited `basketIdent`
field is left untouched. -/
def Basket.applyCreateResponse (b : BasketState) (data : BasketResponse) : BasketState :=
  ⟨b.publicToken, data.ident.getD "", b.basketIdent⟩

/-- One hexadecimal digit, uppercase, as produced by
`encodeURIComponent`. -/
def hexDigitChar (n : Nat) : Char :=
  if n < 10 then Char.ofNat (48 + n) else Char.ofNat (55 + n)

/-- Percent-encoding of one byte: `%` followed by two uppercase hex
digits. -/
def percentEncodeByte (b : Nat) : String :=
  String.mk [Char.ofNat 37, hexDigitChar (b / 16), hexDigitChar (b % 16)]

/-- The UTF-8 byte sequence of one character. -/
def utf8Bytes (c : Char) : List Nat :=
  let n := c.toNat
  if n < 128 then [n]
  else if n < 2048 then [192 + n / 64, 128 + n % 64]
  else if n < 65536 then [224 + n / 4096, 128 + (n / 64) % 64, 128 + n % 64]
  else [240 + n / 262144, 128 + (n / 4096) % 64, 128 + (n / 64) % 64, 128 + n % 64]

/-- The characters `encodeURIComponent` leaves unescaped:
ASCII letters, digits, and `- _ . ! ~ * ' ( )`. -/
def uriUnescaped (c : Char) : Bool :=
  (c.isAlpha && c.toNat < 128) || c.isDigit ||
    c ∈ ['-', '_', '.', '!', '~', '*', Char.ofNat 39, '(', ')']

/-- The ECMAScript `encodeURIComponent` function: unescaped characters
pass through, every other character is replaced by the percent-encoding
of its UTF-8 bytes. -/
def encodeURIComponent (s : String) : String :=
  String.join (s.toList.map fun c =>
    if uriUnescaped c then String.mk [c]
    else String.join ((utf8Bytes c).map percentEncodeByte))

/-- The outgoing side of a Basket method: either a local validation
rejection (`Promise.reject` before any network call) or the request
handed to the transport helper. -/
abbrev MethodCall := Except String HttpRequest

/-- `Basket.getAuthLinks`: rejects when `returnUrl` is falsy (the
empty string), otherwise a GET to the auth path with the encoded
return URL appended. -/
def Basket.getAuthLinks (b : BasketState) (returnUrl : String) : MethodCall :=
  if returnUrl = "" then .error "Return URL not provided"
  else .ok (Headless.mkRequest (Basket.toHeadless b)
    ("/accounts/{token}/baskets/{basketIdent}/auth?returnUrl=" ++
      encodeURIComponent returnUrl) "GET" none)

/-- `Basket.getBasket`: a GET to the basket path; the implementation
takes no parameter. -/
def Basket.getBasket (b : BasketState) : MethodCall :=
  .ok (Headless.mkRequest (Basket.toHeadless b)
    "/accounts/{token}/baskets/{basketIdent}" "GET" none)

/-- Calling `getBasket` through the `IBasket` interface signature,
which declares an optional `basketId` parameter: JavaScript discards
arguments a function does not declare, so the implementation body runs
with the argument unbound. -/
def Basket.getBasketCall (b : BasketState) (_basketId : Option String) : MethodCall :=
  Basket.getBasket b

/-- `Basket.applyCreatorCode`: rejects on a falsy code, otherwise a
POST with body `{creator_code: code}`. -/
def Basket.applyCreatorCode (b : BasketState) (code : String) : MethodCall :=
  if code = "" then .error "Creator code not provided"
  else .ok (Headless.mkRequest (Basket.toHeadless b)
    "/accounts/{token}/baskets/{basketIdent}/creator-codes" "POST"
    (some [("creator_code", .str code)]))

/-- `Basket.removeCreatorCode`: a POST to the remove path, no body. -/
def Basket.removeCreatorCode (b : BasketState) : MethodCall :=
  .ok (Headless.mkRequest (Basket.toHeadless b)
    "/accounts/{token}/baskets/{basketIdent}/creator-codes/remove" "POST" none)

/-- `Basket.applyGiftCard`: rejects on a falsy code, otherwise a POST
with body `{card_number: code}`. -/
def Basket.applyGiftCard (b : BasketState) (code : String) : MethodCall :=
  if code = "" then .error "Gift card code not provided"
  else .ok (Headless.mkRequest (Basket.toHeadless b)
    "/accounts/{token}/baskets/{basketIdent}/giftcards" "POST"
    (some [("card_number", .str code)]))

/-- `Basket.removeGiftCard`: rejects on a falsy code, otherwise a POST
to the remove path with body `{card_number: code}`. -/
def Basket.removeGiftCard (b : BasketState) (code : String) : MethodCall :=
  if code = "" then .error "Gift card code not provided"
  else .ok (Headless.mkRequest (Basket.toHeadless b)
    "/accounts/{token}/baskets/{basketIdent}/giftcards/remove" "POST"
    (some [("card_number", .str code)]))

/-- `Basket.applyCoupon`: rejects on a falsy code, otherwise a POST
with body `{coupon_code: code}`. -/
def Basket.applyCoupon (b : BasketState) (code : String) : MethodCall :=
  if code = "" then .error "Coupon code not provided"
  else .ok (Headless.mkRequest (Basket.toHeadless b)
    "/accounts/{token}/baskets/{basketIdent}/coupons" "POST"
    (some [("coupon_code", .str code)]))

/-- `Basket.removeCoupon`: a POST to the remove path, no body. -/
def Basket.removeCoupon (b : BasketState) : MethodCall :=
  .ok (Headless.mkRequest (Basket.toHeadless b)
    "/accounts/{token}/baskets/{basketIdent}/coupons/remove" "POST" none)

/-- `Basket.addPackage` with both arguments supplied: rejects on a
falsy package id, otherwise a POST with body
`{package_id: packageId, quantity: quantity}`; the quantity itself is
never checked. -/
def Basket.addPackage (b : BasketState) (packageId : String) (quantity : Rat) :
    MethodCall :=
  if packageId = "" then .error "Package ID not provided"
  else .ok (Headless.mkRequest (Basket.toHeadless b)
    "/baskets/{basketIdent}/packages" "POST"
    (some [("package_id", .str packageId), ("quantity", .num quantity)]))

/-- Calling `addPackage(packageId)` with no second argument: the
declared parameter default `quantity: number = 1` is bound. -/
def Basket.addPackageNoQuantity (b : BasketState) (packageId : String) : MethodCall :=
  Basket.addPackage b packageId 1

/-- `Basket.removePackage`: rejects on a falsy package id, otherwise a
POST with body `{package_id: packageId}`. -/
def Basket.removePackage (b : BasketState) (packageId : String) : MethodCall :=
  if packageId = "" then .error "Package ID not provided"
  else .ok (Headless.mkRequest (Basket.toHeadless b)
    "/baskets/{basketIdent}/packages/remove" "POST"
    (some [("package_id", .str packageId)]))

/-- `Basket.updateQuantity`: rejects on a falsy package id, then on a
falsy quantity (for a number, falsy means zero), otherwise a PUT with
body `{package_id: packageId, quantity: quantity}`. -/
def Basket.updateQuantity (b : BasketState) (packageId : String) (quantity : Rat) :
    MethodCall :=
  if packageId = "" then .error "Package ID not provided"
  else if quantity = 0 then .error "Quantity not provided"
  else .ok (Headless.mkRequest (Basket.toHeadless b)
    "/baskets/{basketIdent}/packages/update" "PUT"
    (some [("package_id", .str packageId), ("quantity", .num quantity)]))

/-- A JavaScript runtime value passed where a string is expected:
either an actual string or a value of any other runtime type (the
`typeof publicToken !== 'string'` branch of the Store constructor). -/
inductive JsValue where
  | str (s : String)
  | nonString
deriving Repr, DecidableEq

/-- The fields of a `Store` instance after successful construction. -/
structure StoreState where
  publicToken : String
  baseUrl : String
deriving Repr, DecidableEq

/-- The `Store` constructor: throws `Error('Invalid Token')` when the
argument is falsy or not a string, before any request; on success it
stores the token and base URL and issues no HTTP request (the returned
list of construction-time requests is empty). -/
def Store.init (publicToken : JsValue) : Except String (StoreState × List HttpRequest) :=
  match publicToken with
  | .str s =>
    if s = "" then .error "Invalid Token"
    else .ok (⟨s, "https://headless.tebex.io/api"⟩, [])
  | .nonString => .error "Invalid Token"

/-- The `Headless` view of a `Store` instance (it never has a basket
ident). -/
def Store.toHeadless (st : StoreState) : HeadlessState :=
  ⟨st.baseUrl, some st.publicToken, none⟩

/-- `Store.getWebstore`: a GET to the account path. -/
def Store.getWebstore (st : StoreState) : MethodCall :=
  .ok (Headless.mkRequest (Store.toHeadless st) "/accounts/{token}" "GET" none)

/-- `Store.getPages`: a GET to the account pages path. -/
def Store.getPages (st : StoreState) : MethodCall :=
  .ok (Headless.mkRequest (Store.toHeadless st) "/accounts/{token}/pages" "GET" none)

/-- C1: the claim fails on the code. With public token "abc" and a
construction-time POST resolving with ident "xyz", the client holds
`ident = "xyz"`, yet `getBasket` issues its GET to
`/accounts/abc/baskets/` with an empty identifier — not to
`/accounts/abc/baskets/xyz` — because the `.then` callback stores the
server ident into the `ident` field while the transport helper
substitutes the never-assigned inherited `basketIdent` field. -/
theorem c1_ident_never_substituted :
    (Basket.applyCreateResponse (Basket.init "abc").1
      { BasketResponse.empty with ident := some "xyz" }).ident = "xyz" ∧
    Basket.getBasket (Basket.applyCreateResponse (Basket.init "abc").1
      { BasketResponse.empty with ident := some "xyz" }) =
      .ok ⟨"https://headless.tebex.io/api/accounts/abc/baskets/", "GET", none⟩ ∧
    "https://headless.tebex.io/api/accounts/abc/baskets/" ≠
      "https://headless.tebex.io/api/accounts/abc/baskets/xyz" :=
  ⟨rfl, rfl, by decide⟩

/-- C2: every required-argument method called with its falsy argument
rejects locally with the fixed message naming the missing field, and —
since a local rejection short-circuits `runCall` — no HTTP response is
ever consulted; in particular `updateQuantity(pkgId, 0)` rejects with
"Quantity not provided". -/
theorem c2_required_arguments (b : BasketState) (q : Rat) (pkgId : String)
    (hp : pkgId ≠ "") (T : Type) (resp : HttpResponse T) :
    Basket.getAuthLinks b "" = .error "Return URL not provided" ∧
    Basket.applyCreatorCode b "" = .error "Creator code not provided" ∧
    Basket.applyGiftCard b "" = .error "Gift card code not provided" ∧
    Basket.removeGiftCard b "" = .error "Gift card code not provided" ∧
    Basket.applyCoupon b "" = .error "Coupon code not provided" ∧
    Basket.addPackage b "" q = .error "Package ID not provided" ∧
    Basket.removePackage b "" = .error "Package ID not provided" ∧
    Basket.updateQuantity b "" q = .error "Package ID not provided" ∧
    Basket.updateQuantity b pkgId 0 = .error "Quantity not provided" ∧
    runCall (Basket.getAuthLinks b "") resp = .error "Return URL not provided" ∧
    runCall (Basket.updateQuantity b pkgId 0) resp = .error "Quantity not provided" := by
  have h9 : Basket.updateQuantity b pkgId 0 = .error "Quantity not provided" := by
    simp [Basket.updateQuantity, hp]
  refine ⟨rfl, rfl, rfl, rfl, rfl, rfl, rfl, rfl, h9, rfl, ?_⟩
  rw [h9]
  rfl

/-- C2 witness: the updateQuantity zero-quantity edge case at the
concrete package id "p". -/
theorem c2_required_arguments_witness :
    Basket.updateQuantity ⟨"abc", "", none⟩ "p" 0 = .error "Quantity not provided" :=
  (c2_required_arguments ⟨"abc", "", none⟩ 5 "p" (by decide) Nat
    ⟨200, "OK", 0⟩).2.2.2.2.2.2.2.2.1

/-- C3: whenever the response status is outside 200–299 the transport
helper rejects with "Request failed with status <status>: <statusText>",
and for status 404 with text "Not Found" the message is exactly
"Request failed with status 404: Not Found". -/
theorem c3_transport_rejection (T : Type) (s : HeadlessState) (path method : String)
    (body : Option RequestBody) (resp : HttpResponse T)
    (h : responseOk resp.status = false) :
    (Headless.request s path method body resp).2 =
      .error ("Request failed with status " ++ toString resp.status ++ ": " ++
        resp.statusText) ∧
    (Headless.request s path method body
      (⟨404, "Not Found", resp.body⟩ : HttpResponse T)).2 =
      .error "Request failed with status 404: Not Found" := by
  constructor
  · simp [Headless.request, Headless.handleResponse, h]
  · simp [Headless.request, Headless.handleResponse, responseOk]
    rfl

/-- C3 witness: a concrete 404 response through the transport helper. -/
theorem c3_transport_rejection_witness :
    (Headless.request ⟨"https://headless.tebex.io/api", some "abc", none⟩
      "/accounts/{token}" "GET" none (⟨404, "Not Found", (0 : Nat)⟩)).2 =
      .error "Request failed with status 404: Not Found" :=
  (c3_transport_rejection Nat ⟨"https://headless.tebex.io/api", some "abc", none⟩
    "/accounts/{token}" "GET" none ⟨404, "Not Found", 0⟩ (by decide)).2

/-- C4: on any success-range status, the result of `getBasket` is the
parsed response body itself, unchanged. -/
theorem c4_get_basket_verbatim (T : Type) (b : BasketState) (resp : HttpResponse T)
    (h : responseOk resp.status = true) :
    runCall (Basket.getBasket b) resp = .ok resp.body := by
  simp [runCall, Basket.getBasket, Headless.handleResponse, h]

/-- C4 witness: a concrete 200 response body returned verbatim. -/
theorem c4_get_basket_verbatim_witness :
    runCall (Basket.getBasket ⟨"abc", "", none⟩)
      ⟨200, "OK", { BasketResponse.empty with ident := some "xyz" }⟩ =
      .ok { BasketResponse.empty with ident := some "xyz" } :=
  c4_get_basket_verbatim BasketResponse ⟨"abc", "", none⟩
    ⟨200, "OK", { BasketResponse.empty with ident := some "xyz" }⟩ (by decide)

/-- C5: for any non-empty package id, `addPackage(packageId)` called
without a quantity argument issues a POST to
`/baskets/{basketIdent}/packages` with body
`{package_id: packageId, quantity: 1}`. -/
theorem c5_add_package_default_quantity (b : BasketState) (packageId : String)
    (h : packageId ≠ "") :
    Basket.addPackageNoQuantity b packageId =
      .ok (Headless.mkRequest (Basket.toHeadless b) "/baskets/{basketIdent}/packages"
        "POST" (some [("package_id", .str packageId), ("quantity", .num 1)])) := by
  simp [Basket.addPackageNoQuantity, Basket.addPackage, h]

/-- C5 witness: the default quantity at the concrete package id "pkg". -/
theorem c5_add_package_default_quantity_witness :
    Basket.addPackageNoQuantity ⟨"abc", "", none⟩ "pkg" =
      .ok (Headless.mkRequest (Basket.toHeadless ⟨"abc", "", none⟩)
        "/baskets/{basketIdent}/packages" "POST"
        (some [("package_id", .str "pkg"), ("quantity", .num 1)])) :=
  c5_add_package_default_quantity ⟨"abc", "", none⟩ "pkg" (by decide)

/-- C6: for any non-empty return URL, `getAuthLinks` issues a GET to
the auth path with the URL appended as a query parameter through
`encodeURIComponent`, and the example value "https://example.com/done"
encodes to "https%3A%2F%2Fexample.com%2Fdone". -/
theorem c6_auth_links_encoded (b : BasketState) (returnUrl : String)
    (h : returnUrl ≠ "") :
    Basket.getAuthLinks b returnUrl =
      .ok (Headless.mkRequest (Basket.toHeadless b)
        ("/accounts/{token}/baskets/{basketIdent}/auth?returnUrl=" ++
          encodeURIComponent returnUrl) "GET" none) ∧
    encodeURIComponent "https://example.com/done" = "https%3A%2F%2Fexample.com%2Fdone" := by
  constructor
  · simp [Basket.getAuthLinks, h]
  · rfl

/-- C6 witness: the outgoing request at the concrete return URL,
percent-encoded in the final path. -/
theorem c6_auth_links_encoded_witness :
    Basket.getAuthLinks ⟨"abc", "", none⟩ "https://example.com/done" =
      .ok ⟨"https://headless.tebex.io/api/accounts/abc/baskets//auth?returnUrl=https%3A%2F%2Fexample.com%2Fdone",
        "GET", none⟩ :=
  ((c6_auth_links_encoded ⟨"abc", "", none⟩ "https://example.com/done"
    (by decide)).1).trans (by rfl)

/-- C7: Store construction throws "Invalid Token" exactly when the
supplied value is not a non-empty string, and a successful
construction stores the token and issues no HTTP request. -/
theorem c7_store_token_validation (v : JsValue) :
    ((∃ s, v = JsValue.str s ∧ s ≠ "") →
      ∃ st : StoreState, Store.init v = .ok (st, []) ∧
        ∀ s, v = JsValue.str s → st.publicToken = s) ∧
    ((∀ s, v = JsValue.str s → s = "") → Store.init v = .error "Invalid Token") := by
  constructor
  · rintro ⟨s, rfl, hs⟩
    refine ⟨⟨s, "https://headless.tebex.io/api"⟩, ?_, ?_⟩
    · simp [Store.init, hs]
    · intro t ht
      injection ht
  · intro hall
    cases v with
    | str s =>
      have : s = "" := hall s rfl
      simp [Store.init, this]
    | nonString => rfl

/-- C7 witness: empty-string and non-string tokens are rejected with
no request issued; a non-empty string token constructs successfully. -/
theorem c7_store_token_validation_witness :
    Store.init (JsValue.str "") = .error "Invalid Token" ∧
    Store.init JsValue.nonString = .error "Invalid Token" ∧
    Store.init (JsValue.str "abc") =
      .ok (⟨"abc", "https://headless.tebex.io/api"⟩, []) := by
  refine ⟨(c7_store_token_validation (JsValue.str "")).2 ?_,
    (c7_store_token_validation JsValue.nonString).2 ?_, rfl⟩
  · intro s h
    injection h with h2
    exact h2.symm
  · intro s h
    exact JsValue.noConfusion h

/-- C8: calling `getBasket` through the interface signature with any
`basketId` argument (or none) produces the identical outgoing request
and the identical result for any response: the implementation ignores
the declared optional parameter. -/
theorem c8_get_basket_ignores_argument (b : BasketState) (x y : Option String)
    (T : Type) (resp : HttpResponse T) :
    Basket.getBasketCall b x = Basket.getBasketCall b y ∧
    Basket.getBasketCall b x = Basket.getBasket b ∧
    runCall (Basket.getBasketCall b x) resp = runCall (Basket.getBasketCall b y) resp :=
  ⟨rfl, rfl, rfl⟩

/-- C9: `updateQuantity` rejects locally exactly when the package id
is empty or the quantity is zero; for every other quantity — negative
and fractional included — both `updateQuantity` and `addPackage` pass
the quantity through verbatim in the JSON body. -/
theorem c9_no_range_validation (b : BasketState) (pkgId : String) (q : Rat) :
    ((∃ msg, Basket.updateQuantity b pkgId q = .error msg) ↔ (pkgId = "" ∨ q = 0)) ∧
    (pkgId ≠ "" → q ≠ 0 →
      Basket.updateQuantity b pkgId q =
        .ok (Headless.mkRequest (Basket.toHeadless b)
          "/baskets/{basketIdent}/packages/update" "PUT"
          (some [("package_id", .str pkgId), ("quantity", .num q)]))) ∧
    (pkgId ≠ "" →
      Basket.addPackage b pkgId q =
        .ok (Headless.mkRequest (Basket.toHeadless b)
          "/baskets/{basketIdent}/packages" "POST"
          (some [("package_id", .str pkgId), ("quantity", .num q)]))) := by
  refine ⟨⟨?_, ?_⟩, ?_, ?_⟩
  · rintro ⟨msg, hmsg⟩
    by_cases h1 : pkgId = ""
    · exact Or.inl h1
    · by_cases h2 : q = 0
      · exact Or.inr h2
      · simp [Basket.updateQuantity, h1, h2] at hmsg
  · rintro (h | h)
    · exact ⟨"Package ID not provided", by simp [Basket.updateQuantity, h]⟩
    · by_cases h1 : pkgId = ""
      · exact ⟨"Package ID not provided", by simp [Basket.updateQuantity, h1]⟩
      · exact ⟨"Quantity not provided", by simp [Basket.updateQuantity, h1, h]⟩
  · intro h1 h2
    simp [Basket.updateQuantity, h1, h2]
  · intro h1
    simp [Basket.addPackage, h1]

/-- C9 witness: a negative fractional quantity passes through
verbatim. -/
theorem c9_no_range_validation_witness :
    Basket.updateQuantity ⟨"abc", "", none⟩ "p" (-3 / 2) =
      .ok (Headless.mkRequest (Basket.toHeadless ⟨"abc", "", none⟩)
        "/baskets/{basketIdent}/packages/update" "PUT"
        (some [("package_id", .str "p"), ("quantity", .num (-3 / 2))])) :=
  (c9_no_range_validation ⟨"abc", "", none⟩ "p" (-3 / 2)).2.1 (by decide) (by norm_num)

/-- C10: the `ident` field starts as the empty string, and the
construction-time callback stores `data.ident ?? ''`, so an absent
`ident` in the creation response leaves the empty string — `ident` is
always a string. -/
theorem c10_ident_defaults_to_empty (publicToken : String) (data : BasketResponse) :
    (Basket.init publicToken).1.ident = "" ∧
    (Basket.applyCreateResponse (Basket.init publicToken).1 data).ident =
      data.ident.getD "" ∧
    (data.ident = none →
      (Basket.applyCreateResponse (Basket.init publicToken).1 data).ident = "") := by
  refine ⟨rfl, rfl, ?_⟩
  intro h
  simp [Basket.applyCreateResponse, h]

/-- C10 witness: a creation response with no ident field stores the
empty string. -/
theorem c10_ident_defaults_to_empty_witness :
    (Basket.applyCreateResponse (Basket.init "abc").1 BasketResponse.empty).ident = "" :=
  (c10_ident_defaults_to_empty "abc" BasketResponse.empty).2.2 rfl
